import Mathlib

/-!
Verification of the alarm-chain-pulling dashboard frontend.

The definitions below are shallow embeddings of the TypeScript source under
src/: JavaScript numbers appearing in averages are modelled as rationals,
value-to-count mappings (JS objects) as association lists with natural-number
counts, and `Array.prototype.sort` as a stable sort with the comparator
translated to a relation.  Backend behaviour that is only described by the
spec (the repository ships the frontend only) is modelled in definitions
whose doc comments say so explicitly.
-/

namespace ACP

/-- The comparator used by every chart: descending by count
(JS source: `.sort((a, b) => b.value - a.value)`). -/
def countGE (a b : String × Nat) : Prop := b.2 ≤ a.2

instance : DecidableRel countGE := fun a b => inferInstanceAs (Decidable (b.2 ≤ a.2))

instance : IsTotal (String × Nat) countGE := ⟨fun a b => Nat.le_total b.2 a.2⟩

instance : IsTrans (String × Nat) countGE := ⟨fun _ _ _ hab hbc => Nat.le_trans hbc hab⟩

/-- Model of `Object.entries(data).sort((a, b) => b.value - a.value)`:
a stable sort of the entry list, descending by count. -/
def sortByCountDesc (l : List (String × Nat)) : List (String × Nat) :=
  List.insertionSort countGE l

/-- Result type of `getTrendDirection` in NewDashboard.tsx. -/
inductive TrendDirection
  | Increasing
  | Decreasing
  | Stable
deriving DecidableEq

/-- First half of the series: `trendData.slice(0, Math.floor(length / 2))`
(NewDashboard.tsx, getTrendDirection). -/
def firstHalf (xs : List ℚ) : List ℚ := xs.take (xs.length / 2)

/-- Second half of the series: `trendData.slice(Math.floor(length / 2))`
(NewDashboard.tsx, getTrendDirection). -/
def secondHalf (xs : List ℚ) : List ℚ := xs.drop (xs.length / 2)

/-- Mean of a series: `reduce((sum, val) => sum + val, 0) / length`. -/
def mean (xs : List ℚ) : ℚ := xs.sum / (xs.length : ℚ)

/-- Embedding of `getTrendDirection` (NewDashboard.tsx lines 147-159). -/
def getTrendDirection (xs : List ℚ) : TrendDirection :=
  if xs.length < 2 then TrendDirection.Stable
  else if mean (secondHalf xs) > mean (firstHalf xs) * (11 / 10) then TrendDirection.Increasing
  else if mean (secondHalf xs) < mean (firstHalf xs) * (9 / 10) then TrendDirection.Decreasing
  else TrendDirection.Stable

/-- What renderChart produces: either the no-data placeholder card or a chart
over the sorted entry list. -/
inductive ChartView
  | noData
  | chart (entries : List (String × Nat))
deriving DecidableEq

/-- Embedding of the renderChart guard and entry preparation
(NewDashboard.tsx lines 228-249): an absent (`!data`) or empty
(`Object.keys(data).length === 0`) mapping yields the card that shows the text
No data available; otherwise the entries are sorted descending by count. -/
def renderChart (data : Option (List (String × Nat))) : ChartView :=
  match data with
  | none => ChartView.noData
  | some entries =>
    if entries.length = 0 then ChartView.noData
    else ChartView.chart (sortByCountDesc entries)

/-- Top 11 time-of-day buckets: `sortedData.slice(0, 11)` in the part_007
renderChart Time Analysis branch. -/
def timeAnalysisTop11 (data : List (String × Nat)) : List (String × Nat) :=
  (sortByCountDesc data).take 11

/-- Remainder of the time-of-day buckets:
`sortedData.slice(11).reduce((sum, item) => sum + item.value, 0)`. -/
def timeAnalysisOthers (data : List (String × Nat)) : Nat :=
  (((sortByCountDesc data).drop 11).map Prod.snd).sum

/-- Embedding of the Time Analysis pie preparation in the part_007 renderChart:
take the top 11 buckets by count and, when the remaining buckets have a
positive total, append one synthetic Others bucket carrying that total. -/
def timeAnalysisPieData (data : List (String × Nat)) : List (String × Nat) :=
  if 0 < timeAnalysisOthers data then
    timeAnalysisTop11 data ++ [("Others", timeAnalysisOthers data)]
  else timeAnalysisTop11 data

/-- A concrete twelve-bucket time-of-day mapping used as a witness input. -/
def timeAnalysisSample : List (String × Nat) :=
  [("00-02", 30), ("02-04", 28), ("04-06", 26), ("06-08", 24), ("08-10", 22),
   ("10-12", 20), ("12-14", 18), ("14-16", 16), ("16-18", 14), ("18-20", 12),
   ("20-22", 10), ("22-24", 8)]

/-- One entry of the filter-options response in the part_002 GlobalFilters
variant: a value together with its incident count. -/
structure FilterOptionEntry where
  value : String
  incident_count : Nat
deriving DecidableEq

/-- Embedding of loadFilterOptions in the part_002 GlobalFilters variant
(lines 45-62): the response lists are stored as received
(`options.rpf_posts || []`), and updateFilteredOptions passes them through
unchanged to the dropdowns. -/
def loadFilterOptionsKeepOrder
    (rpf_posts train_numbers : Option (List FilterOptionEntry)) :
    List FilterOptionEntry × List FilterOptionEntry :=
  (rpf_posts.getD [], train_numbers.getD [])

/-- Lexicographic comparison of character sequences by code point, matching
the code-unit comparison JavaScript uses for the default sort order. -/
def charListLE : List Char → List Char → Bool
  | [], _ => true
  | _ :: _, [] => false
  | a :: as, b :: bs =>
    if a.toNat < b.toNat then true
    else if b.toNat < a.toNat then false
    else charListLE as bs

/-- The default JavaScript string order, as a relation. -/
def jsLE (a b : String) : Prop := charListLE a.data b.data = true

instance : DecidableRel jsLE := fun _ _ => inferInstanceAs (Decidable (_ = true))

/-- Model of `JavaScript Array.prototype.sort()` with no comparator on a string
list: a stable sort in ascending lexicographic order. -/
def jsStringSort (l : List String) : List String :=
  List.insertionSort jsLE l

/-- Embedding of loadFilterOptions in the part_003 GlobalFilters variant
(lines 75-86): the response lists are re-sorted with `.sort()` before being
stored and shown in the dropdowns. -/
def loadFilterOptionsResort (rpf_posts train_numbers : Option (List String)) :
    List String × List String :=
  (jsStringSort (rpf_posts.getD []), jsStringSort (train_numbers.getD []))

/-- Incident counts for the C3 counterexample: post B has 5 incidents and
every other value 3, so the response order [B, A] is descending by count. -/
def cexCounts (s : String) : Nat := if s = "B" then 5 else 3

/-- The chartData preparation shared by the renderChart implementations
(NewDashboard.tsx lines 242-249 and the part_007 variant): the entries of the
mapping sorted descending by count. -/
def chartData (data : List (String × Nat)) : List (String × Nat) :=
  sortByCountDesc data

/-- Model of `.map(([section, count], index) => ({rank: index + 1, section,
count}))`: attach 1-based ranks to a list of entries. -/
def rankFrom (r : Nat) : List (String × Nat) → List (Nat × String × Nat)
  | [] => []
  | p :: rest => (r, p) :: rankFrom (r + 1) rest

/-- Embedding of getSectionsList (TopSections.tsx lines 174-183): sort the
mapping descending by count, keep the first 10 entries and attach ranks. -/
def getSectionsList (data : List (String × Nat)) : List (Nat × String × Nat) :=
  rankFrom 1 ((sortByCountDesc data).take 10)

/-- The timeframe radio group of GlobalFilters. -/
inductive Timeframe
  | all
  | month
  | custom
deriving DecidableEq

/-- A calendar date, the model of a Dayjs day value. -/
structure Date where
  year : Nat
  month : Nat
  day : Nat
deriving DecidableEq

/-- The GlobalFilterState shared by the pages: timeframe, optional date range
(whose ends may themselves be null), optional selected month and the two
multi-select lists. -/
structure GlobalFilterState where
  timeframe : Timeframe
  dateRange : Option (Option Date × Option Date)
  selectedMonth : Option Nat
  rpfPosts : List String
  trainNumbers : List String
deriving DecidableEq

/-- The FilterSpec request body the pages post to the backend; a field that
was never assigned is none and is absent from the serialized object. -/
structure FilterRequest where
  date_from : Option Date
  date_to : Option Date
  rpf_posts : Option (List String)
  train_numbers : Option (List String)
deriving DecidableEq

/-- Embedding of buildFilters in the AllIncidents view (part_001 lines
105-125): date_from/date_to are assigned only under timeframe month or custom
with a non-null dateRange; rpf_posts and train_numbers only when the
corresponding selection is non-empty. -/
def buildFilters (s : GlobalFilterState) : FilterRequest :=
  let dates : Option Date × Option Date :=
    if s.timeframe = Timeframe.month ∨ s.timeframe = Timeframe.custom then
      match s.dateRange with
      | some r => r
      | none => (none, none)
    else (none, none)
  { date_from := dates.1
    date_to := dates.2
    rpf_posts := if 0 < s.rpfPosts.length then some s.rpfPosts else none
    train_numbers := if 0 < s.trainNumbers.length then some s.trainNumbers else none }

/-- Number of days of a month in the proleptic Gregorian calendar, as Dayjs
computes endOf month. -/
def daysInMonth (year month : Nat) : Nat :=
  if month = 2 then
    if (year % 4 = 0 ∧ year % 100 ≠ 0) ∨ year % 400 = 0 then 29 else 28
  else if month = 4 ∨ month = 6 ∨ month = 9 ∨ month = 11 then 30 else 31

/-- The range set by the month effect: the first through the last calendar day
of month m of the given year (dayjs start of month to endOf month). -/
def monthDateRange (currentYear m : Nat) : Date × Date :=
  (⟨currentYear, m, 1⟩, ⟨currentYear, m, daysInMonth currentYear m⟩)

/-- Embedding of the GlobalFilters month effect (part_002 lines 90-98,
part_003 lines 65-73): when the timeframe is month and a (truthy) month is
selected, the dateRange is set to that month of the current year, taken from
the current date; otherwise the effect leaves the dateRange unchanged. -/
def monthEffect (tf : Timeframe) (selectedMonth : Option Nat) (today : Date)
    (dateRange : Option (Date × Date)) : Option (Date × Date) :=
  match tf, selectedMonth with
  | Timeframe.month, some m => if m ≠ 0 then some (monthDateRange today.year m) else dateRange
  | _, _ => dateRange

/-- Lexicographic order on calendar dates, the day-granularity comparison the
date filter uses. -/
def dateLE (a b : Date) : Prop :=
  a.year < b.year ∨
    (a.year = b.year ∧ (a.month < b.month ∨ (a.month = b.month ∧ a.day ≤ b.day)))

/-- Membership in an inclusive date range. -/
def inDateRange (d : Date) (r : Date × Date) : Prop := dateLE r.1 d ∧ dateLE d r.2

/-- The pair of multi-select selections held by GlobalFilters. -/
structure Selections where
  rpfPosts : List String
  trainNumbers : List String
deriving DecidableEq

/-- Embedding of handleRpfPostChange (part_002 lines 100-106, part_003 lines
108-114): store the new RPF-post values and clear the train selection when the
new list's length differs from the previous one. -/
def handleRpfPostChange (values : List String) (s : Selections) : Selections :=
  { rpfPosts := values
    trainNumbers := if values.length ≠ s.rpfPosts.length then [] else s.trainNumbers }

/-- Embedding of handleTrainNumberChange (part_002 lines 108-114, part_003
lines 116-122): store the new train values and clear the RPF-post selection
when the new list's length differs from the previous one. -/
def handleTrainNumberChange (values : List String) (s : Selections) : Selections :=
  { rpfPosts := if values.length ≠ s.trainNumbers.length then [] else s.rpfPosts
    trainNumbers := values }

/-- Modelled from the spec: the backend table endpoint (backend/main.py is not
included under src) computes total_pages = ceil(total / page_size) for the
paginated table view. -/
def totalPages (total page_size : Nat) : Nat := (total + page_size - 1) / page_size

/-- Modelled from the spec: the backend table endpoint returns the slice of
the filtered records belonging to the requested 1-based page, i.e. positions
(page-1)*page_size through min(page*page_size, total). -/
def pageSlice {α : Type} (records : List α) (page page_size : Nat) : List α :=
  (records.drop ((page - 1) * page_size)).take page_size

/-- The table response shape (types/api.ts TableResponse). -/
structure TableResponse (α : Type) where
  data : List α
  total : Nat
  page : Nat
  page_size : Nat
  total_pages : Nat

/-- Modelled from the spec: the whole table query over the filtered record
set. -/
def tableQuery {α : Type} (records : List α) (page page_size : Nat) :
    TableResponse α :=
  { data := pageSlice records page page_size
    total := records.length
    page := page
    page_size := page_size
    total_pages := totalPages records.length page_size }

/-- Modelled from the spec: the TopSections page requests the sections
breakdown with limit 20, so the backend returns the 20 highest-count sections
(Top-N: group-and-count sorted descending by count, truncated to N). -/
def topN (m : List (String × Nat)) (n : Nat) : List (String × Nat) :=
  (sortByCountDesc m).take n

/-- The Total Incidents statistic (TopSections.tsx lines 236-239):
`Object.values(analyticsData.sections).reduce((sum, count) => sum + count, 0)`. -/
def totalIncidentsStat (sections : List (String × Nat)) : Nat :=
  (sections.map Prod.snd).sum

/-- The Most Incidents statistic (TopSections.tsx lines 228-230):
`Math.max(...Object.values(analyticsData.sections), 0)`. -/
def mostIncidentsStat (sections : List (String × Nat)) : Nat :=
  (sections.map Prod.snd).foldr max 0

/-- A sections mapping with 21 sections of one incident each; truncating it to
the top 20 drops one incident. -/
def manySections : List (String × Nat) :=
  [("s01", 1), ("s02", 1), ("s03", 1), ("s04", 1), ("s05", 1), ("s06", 1),
   ("s07", 1), ("s08", 1), ("s09", 1), ("s10", 1), ("s11", 1), ("s12", 1),
   ("s13", 1), ("s14", 1), ("s15", 1), ("s16", 1), ("s17", 1), ("s18", 1),
   ("s19", 1), ("s20", 1), ("s21", 1)]

/-! Auxiliary lemmas shared by the claim theorems. -/

theorem charListLE_total (as bs : List Char) :
    charListLE as bs = true ∨ charListLE bs as = true := by
  induction as generalizing bs with
  | nil => left; rfl
  | cons a as ih =>
    cases bs with
    | nil => right; rfl
    | cons b bs =>
      rcases Nat.lt_trichotomy a.toNat b.toNat with h | h | h
      · left; simp [charListLE, h]
      · rcases ih bs with h2 | h2
        · left; simp [charListLE, h, h2]
        · right; simp [charListLE, h.symm, h2]
      · right; simp [charListLE, h]

theorem charListLE_trans (as bs cs : List Char)
    (h1 : charListLE as bs = true) (h2 : charListLE bs cs = true) :
    charListLE as cs = true := by
  induction as generalizing bs cs with
  | nil => rfl
  | cons a as ih =>
    cases bs with
    | nil => simp [charListLE] at h1
    | cons b bs =>
      cases cs with
      | nil => simp [charListLE] at h2
      | cons c cs =>
        simp only [charListLE] at h1 h2 ⊢
        by_cases hab : a.toNat < b.toNat
        · by_cases hbc : b.toNat < c.toNat
          · simp [Nat.lt_trans hab hbc]
          · by_cases hcb : c.toNat < b.toNat
            · simp [hbc, hcb] at h2
            · have hac : a.toNat < c.toNat := by omega
              simp [hac]
        · by_cases hba : b.toNat < a.toNat
          · simp [hab, hba] at h1
          · simp only [hab, hba, if_false] at h1
            by_cases hbc : b.toNat < c.toNat
            · have hac : a.toNat < c.toNat := by omega
              simp [hac]
            · by_cases hcb : c.toNat < b.toNat
              · simp [hbc, hcb] at h2
              · simp only [hbc, hcb, if_false] at h2
                have hac1 : ¬ a.toNat < c.toNat := by omega
                have hca1 : ¬ c.toNat < a.toNat := by omega
                simp only [hac1, hca1, if_false]
                exact ih bs cs h1 h2

theorem rankFrom_map_entry (r : Nat) (l : List (String × Nat)) :
    (rankFrom r l).map (fun t => t.2) = l := by
  induction l generalizing r with
  | nil => rfl
  | cons p rest ih => simp [rankFrom, ih]

theorem le_mostIncidentsStat (s : List (String × Nat)) (p : String × Nat)
    (hp : p ∈ s) : p.2 ≤ mostIncidentsStat s := by
  induction s with
  | nil => cases hp
  | cons q t ih =>
    rcases List.mem_cons.mp hp with rfl | hp
    · exact Nat.le_max_left _ _
    · exact Nat.le_trans (ih hp) (Nat.le_max_right _ _)

/-! The claim theorems, with their counterexamples and witnesses. -/

/-- C1 counterexample: on the all-negative series [-1, -1] the second-half mean
(-1) is below 0.9 times the first-half mean (-0.9), so the claim demands
Decreasing, yet the code classifies the series as Increasing (the 1.1-threshold
branch is tested first and -1 > -1.1). -/
theorem trend_direction_neg_series_cex :
    getTrendDirection [-1, -1] = TrendDirection.Increasing ∧
      mean (secondHalf [-1, -1]) < mean (firstHalf [-1, -1]) * (9 / 10) := by
  constructor
  · norm_num [getTrendDirection, mean, firstHalf, secondHalf]
  · norm_num [mean, firstHalf, secondHalf]

/-- C1 (amended): for a series of fewer than 2 elements the result is Stable;
for a series of at least 2 elements the result is Increasing exactly when the
second-half mean exceeds 1.1 times the first-half mean, Decreasing exactly when
it does not and the second-half mean is below 0.9 times the first-half mean,
and Stable exactly when neither threshold test fires (the two comparisons are
made in that order). -/
theorem trend_direction_cases (xs : List ℚ) :
    (xs.length < 2 → getTrendDirection xs = TrendDirection.Stable) ∧
      (2 ≤ xs.length →
        (getTrendDirection xs = TrendDirection.Increasing ↔
            mean (secondHalf xs) > mean (firstHalf xs) * (11 / 10)) ∧
          (getTrendDirection xs = TrendDirection.Decreasing ↔
            ¬ mean (secondHalf xs) > mean (firstHalf xs) * (11 / 10) ∧
              mean (secondHalf xs) < mean (firstHalf xs) * (9 / 10)) ∧
          (getTrendDirection xs = TrendDirection.Stable ↔
            ¬ mean (secondHalf xs) > mean (firstHalf xs) * (11 / 10) ∧
              ¬ mean (secondHalf xs) < mean (firstHalf xs) * (9 / 10))) := by
  unfold getTrendDirection
  split_ifs with h1 h2 h3 <;>
    · refine ⟨fun _ => ?_, fun hlen => ?_⟩ <;> simp_all <;> try omega

/-- Witness for trend_direction_cases at the concrete series [0]. -/
theorem trend_direction_cases_witness :
    getTrendDirection [0] = TrendDirection.Stable :=
  (trend_direction_cases [0]).1 (by simp)

/-- C6: aggregation consumers handle empty input without failing: the
trend-direction function returns Stable on every series of length 0 or 1, for
length at least 2 both halves are non-empty (so no mean divides by zero), and
rendering an absent or empty mapping yields the no-data placeholder. -/
theorem empty_input_handling :
    (∀ xs : List ℚ, xs.length < 2 → getTrendDirection xs = TrendDirection.Stable) ∧
      (∀ xs : List ℚ, 2 ≤ xs.length →
        0 < (firstHalf xs).length ∧ 0 < (secondHalf xs).length) ∧
      renderChart none = ChartView.noData ∧
      renderChart (some []) = ChartView.noData := by
  refine ⟨fun xs h => ?_, fun xs h => ?_, rfl, rfl⟩
  · unfold getTrendDirection
    simp [h]
  · constructor
    · simp only [firstHalf, List.length_take]
      omega
    · simp only [secondHalf, List.length_drop]
      omega

/-- Witness for empty_input_handling at the empty series and absent mapping. -/
theorem empty_input_handling_witness :
    getTrendDirection [] = TrendDirection.Stable ∧ renderChart none = ChartView.noData :=
  ⟨empty_input_handling.1 [] (by simp), empty_input_handling.2.2.1⟩

/-- C2: the emitted pie buckets are the 11 entries with the highest counts
plus, only when the remainder is positive, a final Others bucket summing every
entry beyond rank 11; the bucket counts sum to the sum over the whole input
mapping and at most 12 buckets are emitted. -/
theorem time_analysis_top11_others (data : List (String × Nat)) :
    ((timeAnalysisPieData data).map Prod.snd).sum = (data.map Prod.snd).sum ∧
      (timeAnalysisPieData data).length ≤ 12 ∧
      (0 < timeAnalysisOthers data →
        timeAnalysisPieData data =
          timeAnalysisTop11 data ++ [("Others", timeAnalysisOthers data)]) ∧
      (timeAnalysisOthers data = 0 → timeAnalysisPieData data = timeAnalysisTop11 data) ∧
      (∀ p ∈ timeAnalysisTop11 data, ∀ q ∈ (sortByCountDesc data).drop 11, q.2 ≤ p.2) := by
  have hperm : List.Perm ((sortByCountDesc data).map Prod.snd) (data.map Prod.snd) :=
    (List.perm_insertionSort countGE data).map Prod.snd
  have hsum : ((sortByCountDesc data).map Prod.snd).sum = (data.map Prod.snd).sum :=
    hperm.sum_eq
  have hsplit :
      ((timeAnalysisTop11 data).map Prod.snd).sum + timeAnalysisOthers data =
        (data.map Prod.snd).sum := by
    rw [← hsum, timeAnalysisTop11, timeAnalysisOthers, List.map_take, List.map_drop]
    exact List.sum_take_add_sum_drop _ _
  refine ⟨?_, ?_, ?_, ?_, ?_⟩
  · unfold timeAnalysisPieData
    split_ifs with h
    · rw [List.map_append, List.sum_append, ← hsplit]
      simp
    · rw [← hsplit]
      omega
  · unfold timeAnalysisPieData
    have h11 : (timeAnalysisTop11 data).length ≤ 11 := by
      simp only [timeAnalysisTop11, List.length_take]
      omega
    split_ifs with h
    · simp only [List.length_append, List.length_cons, List.length_nil]
      omega
    · omega
  · intro h
    simp [timeAnalysisPieData, h]
  · intro h
    simp [timeAnalysisPieData, h]
  · intro p hp q hq
    have hsorted : List.Sorted countGE (sortByCountDesc data) :=
      List.sorted_insertionSort countGE data
    exact hsorted.rel_of_mem_take_of_mem_drop hp hq

/-- Witness for time_analysis_top11_others: on a twelve-bucket mapping the
remainder is positive and the Others bucket is appended last. -/
theorem time_analysis_top11_others_witness :
    timeAnalysisPieData timeAnalysisSample =
      timeAnalysisTop11 timeAnalysisSample ++
        [("Others", timeAnalysisOthers timeAnalysisSample)] :=
  (time_analysis_top11_others timeAnalysisSample).2.2.1 (by decide)

/-- C3 counterexample: a filter-options response listing B (5 incidents)
before A (3 incidents) is descending by incident count, but the part_003
loadFilterOptions re-sorts it lexicographically, so the dropdown presents
[A, B], which is not descending by incident count. -/
theorem filter_options_resorted_cex :
    List.Sorted (fun a b => cexCounts b ≤ cexCounts a) ["B", "A"] ∧
      (loadFilterOptionsResort (some ["B", "A"]) (some ["B", "A"])).1 = ["A", "B"] ∧
      ¬ List.Sorted (fun a b => cexCounts b ≤ cexCounts a) ["A", "B"] := by
  refine ⟨?_, ?_, ?_⟩
  · simp [List.sorted_cons, cexCounts]
  · decide
  · simp [List.sorted_cons, cexCounts]

/-- C3 (amended): the part_002 GlobalFilters variant presents the
filter-options response in the dropdowns exactly as received, preserving its
descending-by-count order; the part_003 variant instead re-sorts both lists
into ascending lexicographic order, which is a permutation of the response but
does not preserve the descending-by-count order. -/
theorem filter_options_order (rpf train : List FilterOptionEntry) (l : List String) :
    loadFilterOptionsKeepOrder (some rpf) (some train) = (rpf, train) ∧
      List.Sorted jsLE (jsStringSort l) ∧
      List.Perm (jsStringSort l) l := by
  haveI : IsTotal String jsLE := ⟨fun a b => charListLE_total a.data b.data⟩
  haveI : IsTrans String jsLE := ⟨fun a b c => charListLE_trans a.data b.data c.data⟩
  refine ⟨rfl, ?_, List.perm_insertionSort _ l⟩
  exact List.sorted_insertionSort _ l

/-- C4: the displayed breakdowns are in non-increasing order of count: the
chartData sequence is a permutation of the input mapping sorted descending by
count, and the top-10 list entries of getSectionsList are the first ten
entries of that order, with their counts non-increasing. -/
theorem breakdowns_sorted_desc (data : List (String × Nat)) :
    List.Sorted countGE (chartData data) ∧
      List.Perm (chartData data) data ∧
      (getSectionsList data).map (fun t => t.2) = (sortByCountDesc data).take 10 ∧
      List.Sorted (fun a b : Nat => b ≤ a) ((getSectionsList data).map (fun t => t.2.2)) := by
  have hsorted : List.Sorted countGE (sortByCountDesc data) :=
    List.sorted_insertionSort countGE data
  refine ⟨hsorted, List.perm_insertionSort countGE data, rankFrom_map_entry 1 _, ?_⟩
  have htake : List.Sorted countGE ((sortByCountDesc data).take 10) :=
    hsorted.sublist (List.take_sublist 10 _)
  have hmap : (getSectionsList data).map (fun t => t.2.2) =
      (((sortByCountDesc data).take 10).map (fun p => p.2)) := by
    rw [← rankFrom_map_entry 1 ((sortByCountDesc data).take 10), List.map_map]
    rfl
  rw [hmap]
  exact List.Pairwise.map _ (fun a b h => h) htake

/-- C5: the request contains rpf_posts iff some RPF post is selected,
train_numbers iff some train is selected, date_from/date_to only under
timeframe month or custom with a date range set, and with timeframe all and no
selections the request is the empty object. -/
theorem buildFilters_key_presence (s : GlobalFilterState) :
    ((buildFilters s).rpf_posts ≠ none ↔ s.rpfPosts ≠ []) ∧
      ((buildFilters s).train_numbers ≠ none ↔ s.trainNumbers ≠ []) ∧
      ((buildFilters s).date_from ≠ none →
        (s.timeframe = Timeframe.month ∨ s.timeframe = Timeframe.custom) ∧
          s.dateRange ≠ none) ∧
      ((buildFilters s).date_to ≠ none →
        (s.timeframe = Timeframe.month ∨ s.timeframe = Timeframe.custom) ∧
          s.dateRange ≠ none) ∧
      (s.timeframe = Timeframe.all → s.rpfPosts = [] → s.trainNumbers = [] →
        buildFilters s =
          { date_from := none, date_to := none, rpf_posts := none, train_numbers := none }) := by
  have hrpfField : (buildFilters s).rpf_posts =
      if 0 < s.rpfPosts.length then some s.rpfPosts else none := rfl
  have htrainField : (buildFilters s).train_numbers =
      if 0 < s.trainNumbers.length then some s.trainNumbers else none := rfl
  have hdateFromField : (buildFilters s).date_from =
      (if s.timeframe = Timeframe.month ∨ s.timeframe = Timeframe.custom then
          match s.dateRange with
          | some r => r
          | none => ((none : Option Date), (none : Option Date))
        else (none, none)).1 := rfl
  have hdateToField : (buildFilters s).date_to =
      (if s.timeframe = Timeframe.month ∨ s.timeframe = Timeframe.custom then
          match s.dateRange with
          | some r => r
          | none => ((none : Option Date), (none : Option Date))
        else (none, none)).2 := rfl
  refine ⟨?_, ?_, ?_, ?_, ?_⟩
  · rcases eq_or_ne s.rpfPosts [] with he | he
    · simp [hrpfField, he]
    · have hp : 0 < s.rpfPosts.length := List.length_pos.mpr he
      simp [hrpfField, hp, he]
  · rcases eq_or_ne s.trainNumbers [] with he | he
    · simp [htrainField, he]
    · have hp : 0 < s.trainNumbers.length := List.length_pos.mpr he
      simp [htrainField, hp, he]
  · intro hne
    by_cases htf : s.timeframe = Timeframe.month ∨ s.timeframe = Timeframe.custom
    · refine ⟨htf, ?_⟩
      cases hr : s.dateRange with
      | none => rw [hdateFromField, if_pos htf, hr] at hne; simp at hne
      | some r => simp [hr]
    · rw [hdateFromField, if_neg htf] at hne
      simp at hne
  · intro hne
    by_cases htf : s.timeframe = Timeframe.month ∨ s.timeframe = Timeframe.custom
    · refine ⟨htf, ?_⟩
      cases hr : s.dateRange with
      | none => rw [hdateToField, if_pos htf, hr] at hne; simp at hne
      | some r => simp [hr]
    · rw [hdateToField, if_neg htf] at hne
      simp at hne
  · intro hall hrpf htrain
    unfold buildFilters
    simp [hall, hrpf, htrain]

/-- Witness for buildFilters_key_presence: with timeframe all and nothing
selected the posted request object is empty. -/
theorem buildFilters_key_presence_witness :
    buildFilters
        { timeframe := Timeframe.all, dateRange := none, selectedMonth := none,
          rpfPosts := [], trainNumbers := [] } =
      { date_from := none, date_to := none, rpf_posts := none, train_numbers := none } :=
  (buildFilters_key_presence _).2.2.2.2 rfl rfl rfl

/-- C7: total_pages is the ceiling of total / page_size (characterized as the
least k with total at most k pages worth of records), the returned page is the
page_size-slice starting at position (page-1)*page_size, and position i of the
returned page holds record (page-1)*page_size + i of the filtered set. -/
theorem table_pagination {α : Type} (records : List α) (page page_size : Nat)
    (hps : 0 < page_size) :
    (∀ k, (tableQuery records page page_size).total_pages ≤ k ↔
        records.length ≤ k * page_size) ∧
      ((tableQuery records page page_size).data).length =
        min page_size (records.length - (page - 1) * page_size) ∧
      (∀ i, i < page_size →
        ((tableQuery records page page_size).data)[i]? =
          records[(page - 1) * page_size + i]?) := by
  refine ⟨?_, ?_, ?_⟩
  · intro k
    show totalPages records.length page_size ≤ k ↔ _
    unfold totalPages
    rw [Nat.div_le_iff_le_mul_add_pred hps, Nat.mul_comm k page_size]
    constructor <;> intro h <;> omega
  · show (pageSlice records page page_size).length = _
    simp [pageSlice]
  · intro i hi
    show (pageSlice records page page_size)[i]? = _
    unfold pageSlice
    rw [List.getElem?_take, if_pos hi, List.getElem?_drop]

/-- Witness for table_pagination: 120 filtered records with page_size 50 give
total_pages 3, and page 2 returns records 51 through 100 (0-based positions 50
through 99). -/
theorem table_pagination_witness :
    totalPages (List.range 120).length 50 ≤ 3 ∧
      totalPages 120 50 = 3 ∧
      pageSlice (List.range 120) 2 50 = List.range' 50 50 := by
  refine ⟨((table_pagination (List.range 120) 2 50 (by decide)).1 3).mpr (by decide),
    by decide, by decide⟩

/-- C8: with timeframe month and a selected month m in 1..12 the effect sets
the range to the first through the last day of month m of the current year
(the year comes from the current date), and every date inside that inclusive
range has that year and month, so records of other years are excluded. -/
theorem month_effect_current_year (today : Date) (m : Nat)
    (dateRange : Option (Date × Date)) (hm1 : 1 ≤ m) (hm12 : m ≤ 12) :
    monthEffect Timeframe.month (some m) today dateRange =
        some (monthDateRange today.year m) ∧
      (monthDateRange today.year m).1 = ⟨today.year, m, 1⟩ ∧
      (monthDateRange today.year m).2 = ⟨today.year, m, daysInMonth today.year m⟩ ∧
      (∀ d : Date, inDateRange d (monthDateRange today.year m) →
        d.year = today.year ∧ d.month = m) := by
  refine ⟨?_, rfl, rfl, ?_⟩
  · have : m ≠ 0 := by omega
    simp [monthEffect, this]
  · intro d hd
    obtain ⟨h1, h2⟩ := hd
    unfold monthDateRange at h1 h2
    unfold dateLE at h1 h2
    simp only at h1 h2
    have hy : d.year = today.year := by omega
    have hmo : d.month = m := by omega
    exact ⟨hy, hmo⟩

/-- Witness for month_effect_current_year: selecting March while today is
2026-10-12 sets the range to March 2026. -/
theorem month_effect_current_year_witness :
    monthEffect Timeframe.month (some 3) ⟨2026, 10, 12⟩ none =
      some (monthDateRange 2026 3) :=
  (month_effect_current_year ⟨2026, 10, 12⟩ 3 none (by decide) (by decide)).1

/-- C9: an RPF-post change whose new list has a different length resets the
train selection to empty, and symmetrically for a train-number change; in
particular any single add or remove of one value (which changes the length by
one) leaves the other dimension empty, never a stale non-empty selection. -/
theorem selection_change_resets_other (values : List String) (s : Selections) :
    (handleRpfPostChange values s).rpfPosts = values ∧
      (handleTrainNumberChange values s).trainNumbers = values ∧
      (values.length ≠ s.rpfPosts.length →
        (handleRpfPostChange values s).trainNumbers = []) ∧
      (values.length ≠ s.trainNumbers.length →
        (handleTrainNumberChange values s).rpfPosts = []) ∧
      ((values.length = s.rpfPosts.length + 1 ∨ s.rpfPosts.length = values.length + 1) →
        (handleRpfPostChange values s).trainNumbers = []) ∧
      ((values.length = s.trainNumbers.length + 1 ∨
          s.trainNumbers.length = values.length + 1) →
        (handleTrainNumberChange values s).rpfPosts = []) := by
  refine ⟨rfl, rfl, ?_, ?_, ?_, ?_⟩
  · intro h
    simp [handleRpfPostChange, h]
  · intro h
    simp [handleTrainNumberChange, h]
  · intro h
    have hne : values.length ≠ s.rpfPosts.length := by omega
    simp [handleRpfPostChange, hne]
  · intro h
    have hne : values.length ≠ s.trainNumbers.length := by omega
    simp [handleTrainNumberChange, hne]

/-- Witness for selection_change_resets_other: selecting a first RPF post
clears a previously selected train. -/
theorem selection_change_resets_other_witness :
    (handleRpfPostChange [("PostA")] { rpfPosts := [], trainNumbers := [("12345")] }).trainNumbers
      = [] :=
  (selection_change_resets_other [("PostA")] _).2.2.1 (by decide)

/-- C10: the Total Incidents statistic is the sum of the counts of the
returned sections mapping, the Most Incidents statistic bounds every section
count and is 0 on an empty mapping, the statistic never exceeds the count over
the untruncated mapping, and a 21-section mapping witnesses a strict
undercount under the limit-20 truncation. -/
theorem top_sections_stats :
    (∀ s : List (String × Nat), totalIncidentsStat s = (s.map Prod.snd).sum) ∧
      mostIncidentsStat [] = 0 ∧
      (∀ s : List (String × Nat), ∀ p ∈ s, p.2 ≤ mostIncidentsStat s) ∧
      (∀ s n, totalIncidentsStat (topN s n) ≤ totalIncidentsStat s) ∧
      totalIncidentsStat (topN manySections 20) < totalIncidentsStat manySections := by
  refine ⟨fun _ => rfl, rfl, le_mostIncidentsStat, ?_, by decide⟩
  intro s n
  have hperm : List.Perm ((sortByCountDesc s).map Prod.snd) (s.map Prod.snd) :=
    (List.perm_insertionSort countGE s).map Prod.snd
  have hsplit := List.sum_take_add_sum_drop ((sortByCountDesc s).map Prod.snd) n
  calc totalIncidentsStat (topN s n)
      = (((sortByCountDesc s).map Prod.snd).take n).sum := by
        unfold totalIncidentsStat topN
        rw [List.map_take]
    _ ≤ ((sortByCountDesc s).map Prod.snd).sum := Nat.le.intro hsplit
    _ = totalIncidentsStat s := hperm.sum_eq

/-- Witness for top_sections_stats: in a one-section mapping the Most
Incidents statistic dominates that section's count. -/
theorem top_sections_stats_witness :
    (("sec", 4) : String × Nat).2 ≤ mostIncidentsStat [("sec", 4)] :=
  top_sections_stats.2.2.1 [("sec", 4)] ("sec", 4) (by simp)

end ACP
